import Mathlib

/-!
Shallow embedding of the gsp-heating-server core, translated from the
TypeScript sources:

* `src/src/devices/heating/heating.service.ts` — the heating service
  (device state table, command operations, 1 Hz PID regulator tick,
  seasonal valve policy).
* `src/unnamed/part_002` (second revision in the file, the one with the
  database service) — the alternative `runPIDControl` with hysteresis and
  the 0.95 integral decay, and `loadSettingsFromDatabase`.
* `src/src/modbus/modbus-registers.mapper.ts` — `readHoldingRegisterChange`,
  `readCoilChange`, `readCommand`, `clearCommand`, unit-id/device-id mapping.
* `src/src/modbus/modbus-slave.service.ts` (second revision in the file,
  lines 572-2412) — the Modbus handlers `handleReadCoils`,
  `handleReadDiscreteInputs`, `handleReadHoldingRegisters`,
  `handleWriteSingleCoil`, `handleWriteSingleRegister`, `processCommand`,
  `applyHeatingChange`, the flat-address helpers, and — in the related
  documents concatenated at the end of the same staged file — the
  bit-field utilities (`fromInt16`, `removeScale`, staged lines
  1929-2132) and the `MemoryAreaManager` class (staged lines
  2134-2411).
* `src/src/modbus/config/modbus-heating.config.ts` — the static device
  table `MODBUS_HEATING_DEVICES` and memory sizes.
* `src/unnamed/part_004` — the current `modbus.interface.ts` with the
  bit-valued `ModbusCommand` enum (`NOP = 0`, `ENABLE_AUTO_CONTROL = 2`,
  `DISABLE_AUTO_CONTROL = 4`).

Numeric values (JavaScript `number`) are embedded as rationals `ℚ`; the
the floating-point representation is idealised as exact rational
arithmetic.  Wall-clock reads (`new Date()` in the seasonal valve logic)
are made explicit as a `month` parameter.  MQTT publishes and
EventEmitter2 emissions are collected into result lists.
-/

/-- Valve state of a heating device; the source uses the strings
`'open'` and `'closed'`. -/
inductive ValveState
  | opened
  | closed
deriving DecidableEq

/-- PID settings and regulator internals, from `HeatingPIDSettings`
(`heating.interface.ts`): gains, output clamp, integral and previous
error. -/
structure HeatingPIDSettings where
  Kp : ℚ
  Ki : ℚ
  Kd : ℚ
  outputMin : ℚ
  outputMax : ℚ
  integral : ℚ
  prevError : ℚ
deriving DecidableEq

/-- Topic names of one heating device, from the per-device config
(`config.topics`). -/
structure HeatingTopics where
  TEMPERATURE_SENSOR : String
  FAN_DIMMER : String
  VALVE_RELAY : String
deriving DecidableEq

/-- Temperature safety settings of one heating device
(`config.temperatureSettings`). -/
structure TemperatureSettings where
  HYSTERESIS : ℚ
  TEMP_FREEZE_LIMIT : ℚ
  TEMP_OVERHEAT_LIMIT : ℚ
deriving DecidableEq

/-- Modelled from the spec: the static per-device configuration table
`heatingConfigs` lives in `heating.config.ts`, which is absent from
`src/`; the record collects exactly the fields the heating service
reads (`config.broker`, `config.topics`, `config.pidSettings`,
`config.temperatureSettings`), with the safety limits of §3 of the
spec (`overheat_limit`, `freeze_limit`, `hysteresis`). -/
structure HeatingConfig where
  broker : String
  topics : HeatingTopics
  pidSettings : HeatingPIDSettings
  temperatureSettings : TemperatureSettings
deriving DecidableEq

/-- Mutable per-device state, from `HeatingInternalState` in
`heating.service.ts` (fields that the embedded operations read or
write). -/
structure HeatingInternalState where
  currentFanSpeed : ℚ
  valveState : ValveState
  currentTemperature : ℚ
  setpointTemperature : ℚ
  pidOutput : ℚ
  isEmergencyStop : Bool
  isWorking : Bool
  isOnline : Bool
  autoControlEnabled : Bool
  pidState : HeatingPIDSettings
deriving DecidableEq

/-- Payload of an MQTT publish: the service publishes numbers (fan
values) and booleans (valve relay commands). -/
inductive MqttPayload
  | num (value : ℚ)
  | flag (value : Bool)
deriving DecidableEq

/-- One outbound MQTT publish (`mqttService.publish broker topic value`). -/
structure MqttPublish where
  broker : String
  topic : String
  payload : MqttPayload
deriving DecidableEq

/-- Kinds of EventEmitter2 events the heating service emits. -/
inductive HeatingEventKind
  | temperatureUpdated
  | setpointChanged
  | valveStateChanged
  | autoControlEnabledEvt
  | autoControlDisabledEvt
  | emergencyStopEvt
  | emergencyStopResetEvt
  | pidUpdated
deriving DecidableEq

/-- One emitted event, addressed by heating id. -/
structure HeatingEvent where
  heatingId : String
  kind : HeatingEventKind
deriving DecidableEq

/-- The device-state table: `this.states`, keyed by heating id. -/
def StatesTable := String → Option HeatingInternalState

/-- The static config table: `heatingConfigs`, keyed by heating id. -/
def ConfigsTable := String → Option HeatingConfig

/-- Result of one service operation: the new state table plus the MQTT
publishes and events it produced, in order. -/
structure OpResult where
  states : StatesTable
  publishes : List MqttPublish
  events : List HeatingEvent

/-- Point update of the state table at one heating id (the source
mutates `this.states[heatingId]` in place). -/
def modifyState (states : StatesTable) (heatingId : String)
    (f : HeatingInternalState → HeatingInternalState) : StatesTable :=
  fun k => if k = heatingId then (states k).map f else states k

/-- From `heating.service.ts` lines 227-253 (`setValve`): publish the
relay command and update the shadow only when the valve state actually
changes; emits `heating.valve.state.changed`. -/
def setValve (configs : ConfigsTable) (states : StatesTable)
    (heatingId : String) (opened : Bool) : OpResult :=
  match states heatingId, configs heatingId with
  | some state, some config =>
    let newState := if opened then ValveState.opened else ValveState.closed
    if state.valveState = newState then ⟨states, [], []⟩
    else
      ⟨modifyState states heatingId (fun s => { s with valveState := newState }),
       [⟨config.broker, config.topics.VALVE_RELAY ++ "/on", .flag opened⟩],
       [⟨heatingId, .valveStateChanged⟩]⟩
  | _, _ => ⟨states, [], []⟩

/-- From `heating.service.ts` lines 527-547 (`setSeasonalValve`): like
`setValve` but emits no event. -/
def setSeasonalValve (configs : ConfigsTable) (states : StatesTable)
    (heatingId : String) (shouldOpen : Bool) : OpResult :=
  match states heatingId, configs heatingId with
  | some state, some config =>
    let newState := if shouldOpen then ValveState.opened else ValveState.closed
    if state.valveState = newState then ⟨states, [], []⟩
    else
      ⟨modifyState states heatingId (fun s => { s with valveState := newState }),
       [⟨config.broker, config.topics.VALVE_RELAY ++ "/on", .flag shouldOpen⟩],
       []⟩
  | _, _ => ⟨states, [], []⟩

/-- From `heating.service.ts` lines 257-271 (`setFanSpeed`): guard
`!state or !config or speed < 0 or speed > 100`, then publish the fan
value and update the `currentFanSpeed` and `pidOutput` shadows.  No
event is emitted and `isEmergencyStop` is not consulted. -/
def setFanSpeed (configs : ConfigsTable) (states : StatesTable)
    (heatingId : String) (speed : ℚ) : OpResult :=
  match states heatingId, configs heatingId with
  | some _, some config =>
    if speed < 0 ∨ speed > 100 then ⟨states, [], []⟩
    else
      ⟨modifyState states heatingId
         (fun s => { s with currentFanSpeed := speed, pidOutput := speed }),
       [⟨config.broker, config.topics.FAN_DIMMER ++ "/on", .num speed⟩],
       []⟩
  | _, _ => ⟨states, [], []⟩

/-- From `heating.service.ts` lines 274-294 (`setTemperature`): guard
`!state`, validate `5 ≤ t ≤ 35` (drop otherwise), update the setpoint
and emit `heating.setpoint.changed`. -/
def setTemperature (states : StatesTable) (heatingId : String)
    (temperature : ℚ) : OpResult :=
  match states heatingId with
  | some _ =>
    if temperature < 5 ∨ temperature > 35 then ⟨states, [], []⟩
    else
      ⟨modifyState states heatingId
         (fun s => { s with setpointTemperature := temperature }),
       [],
       [⟨heatingId, .setpointChanged⟩]⟩
  | none => ⟨states, [], []⟩

/-- From `heating.service.ts` lines 296-316 (`enableAutoControl`):
set `autoControlEnabled`, clear `isEmergencyStop`, and when the config
exists reset the PID integral and previous error; emits
`heating.auto.control.enabled`. -/
def enableAutoControl (configs : ConfigsTable) (states : StatesTable)
    (heatingId : String) : OpResult :=
  match states heatingId with
  | some _ =>
    let states1 := modifyState states heatingId
      (fun s => { s with autoControlEnabled := true, isEmergencyStop := false })
    let states2 :=
      match configs heatingId with
      | some _ => modifyState states1 heatingId
          (fun s => { s with pidState := { s.pidState with integral := 0, prevError := 0 } })
      | none => states1
    ⟨states2, [], [⟨heatingId, .autoControlEnabledEvt⟩]⟩
  | none => ⟨states, [], []⟩

/-- From `heating.service.ts` lines 318-342 (`disableAutoControl`):
clear `autoControlEnabled` and `isWorking`, publish fan `0`, close the
valve via `setValve`, zero the fan and PID shadows; emits
`heating.auto.control.disabled`. -/
def disableAutoControl (configs : ConfigsTable) (states : StatesTable)
    (heatingId : String) : OpResult :=
  match states heatingId, configs heatingId with
  | some _, some config =>
    let states1 := modifyState states heatingId
      (fun s => { s with autoControlEnabled := false, isWorking := false })
    let fanPub : MqttPublish :=
      ⟨config.broker, config.topics.FAN_DIMMER ++ "/on", .num 0⟩
    let r := setValve configs states1 heatingId false
    let states2 := modifyState r.states heatingId
      (fun s => { s with currentFanSpeed := 0, pidOutput := 0 })
    ⟨states2, fanPub :: r.publishes, r.events ++ [⟨heatingId, .autoControlDisabledEvt⟩]⟩
  | _, _ => ⟨states, [], []⟩

/-- From `heating.service.ts` lines 344-369 (`emergencyStop`): set
`isEmergencyStop`, clear `autoControlEnabled` and `isWorking`, publish
fan `0`, close the valve via `setValve`, zero the fan and PID shadows;
emits `heating.emergency.stop`. -/
def emergencyStop (configs : ConfigsTable) (states : StatesTable)
    (heatingId : String) : OpResult :=
  match states heatingId, configs heatingId with
  | some _, some config =>
    let states1 := modifyState states heatingId
      (fun s => { s with isEmergencyStop := true, autoControlEnabled := false,
                         isWorking := false })
    let fanPub : MqttPublish :=
      ⟨config.broker, config.topics.FAN_DIMMER ++ "/on", .num 0⟩
    let r := setValve configs states1 heatingId false
    let states2 := modifyState r.states heatingId
      (fun s => { s with currentFanSpeed := 0, pidOutput := 0 })
    ⟨states2, fanPub :: r.publishes, r.events ++ [⟨heatingId, .emergencyStopEvt⟩]⟩
  | _, _ => ⟨states, [], []⟩

/-- From `heating.service.ts` lines 371-382 (`resetEmergencyStop`):
clear `isEmergencyStop`; emits `heating.emergency.stop.reset`. -/
def resetEmergencyStop (states : StatesTable) (heatingId : String) : OpResult :=
  match states heatingId with
  | some _ =>
    ⟨modifyState states heatingId (fun s => { s with isEmergencyStop := false }),
     [],
     [⟨heatingId, .emergencyStopResetEvt⟩]⟩
  | none => ⟨states, [], []⟩

/-- From `heating.service.ts` lines 498-525 (`getSeasonalValveState`):
pure function of the current month (from the wall clock, here a
parameter) and the PID output.  The `heatingId` argument of the source
is used only for logging and is dropped; the `day` local is unused in
the source. -/
def getSeasonalValveState (month : ℕ) (pidOutput : ℚ) : Bool :=
  if month = 11 ∨ month = 12 ∨ month = 1 ∨ month = 2 ∨ month = 3 then true
  else if 6 ≤ month ∧ month ≤ 8 then false
  else if (9 ≤ month ∧ month ≤ 10) ∨ (4 ≤ month ∧ month ≤ 5) then
    decide (0 < pidOutput)
  else false

/-- From `heating.service.ts` lines 156-225 (`runPIDControl`): one
regulator tick.  Error, integral update, derivative, raw output; when
the error is negative the output and the integral are reset to `0`,
otherwise the output is clamped to `[outputMin, outputMax]`; fan value
published (`0` below the 15 % threshold), seasonal valve applied,
`isWorking` recomputed; emits `heating.pid.updated`.  The month stands
for the wall-clock read inside `getSeasonalValveState`. -/
def runPIDControl (configs : ConfigsTable) (states : StatesTable)
    (month : ℕ) (heatingId : String) : OpResult :=
  match states heatingId, configs heatingId with
  | some state, some config =>
    let error := state.setpointTemperature - state.currentTemperature
    let integral1 := state.pidState.integral + error
    let derivative := error - state.pidState.prevError
    let output0 := state.pidState.Kp * error + state.pidState.Ki * integral1
      + state.pidState.Kd * derivative
    let output := if error < 0 then 0
      else max state.pidState.outputMin (min state.pidState.outputMax output0)
    let integral2 := if error < 0 then 0 else integral1
    let states1 := modifyState states heatingId (fun s =>
      { s with pidOutput := output, currentFanSpeed := output,
               pidState := { s.pidState with integral := integral2, prevError := error } })
    let fanPub : MqttPublish :=
      if 15 ≤ output then
        ⟨config.broker, config.topics.FAN_DIMMER ++ "/on", .num output⟩
      else
        ⟨config.broker, config.topics.FAN_DIMMER ++ "/on", .num 0⟩
    let r := setSeasonalValve configs states1 heatingId
      (getSeasonalValveState month output)
    let states2 := modifyState r.states heatingId
      (fun s => { s with isWorking := decide (0 < output) })
    ⟨states2, fanPub :: r.publishes, r.events ++ [⟨heatingId, .pidUpdated⟩]⟩
  | _, _ => ⟨states, [], []⟩

/-- From `src/unnamed/part_002` lines 624-632 inside `runPIDControl`
(database revision): the effective error after the hysteresis dead-zone
(`error = 0` when the device is working, over temperature, and within
the hysteresis band). -/
def effectiveErrorDb (config : HeatingConfig) (state : HeatingInternalState) : ℚ :=
  let rawError := state.setpointTemperature - state.currentTemperature
  if state.isWorking ∧ rawError < 0 ∧ |rawError| ≤ config.temperatureSettings.HYSTERESIS
  then 0 else rawError

/-- From `src/unnamed/part_002` lines 614-702 (`runPIDControl`,
database revision): one regulator tick with the hysteresis dead-zone
and the 0.95 integral decay.  The decay `integral = max(0, integral * 0.95)`
appears twice in the source for a negative error: once right after the
integral accumulation (lines 642-644) and once again after the output
clamp (lines 657-660).  The fan value is `max(0, output)`, published as
`0` below the 15 % threshold; seasonal valve and `isWorking` as in the
other revision; emits `heating.pid.updated`. -/
def runPIDControlDb (configs : ConfigsTable) (states : StatesTable)
    (month : ℕ) (heatingId : String) : OpResult :=
  match states heatingId, configs heatingId with
  | some state, some config =>
    let error := effectiveErrorDb config state
    let integral1 := state.pidState.integral + error
    let integral2 := if error < 0 then max 0 (integral1 * (95 / 100)) else integral1
    let derivative := error - state.pidState.prevError
    let output0 := state.pidState.Kp * error + state.pidState.Ki * integral2
      + state.pidState.Kd * derivative
    let output := max state.pidState.outputMin (min state.pidState.outputMax output0)
    let integral3 := if error < 0 then max 0 (integral2 * (95 / 100)) else integral2
    let states1 := modifyState states heatingId (fun s =>
      { s with pidOutput := output, currentFanSpeed := output,
               pidState := { s.pidState with integral := integral3, prevError := error } })
    let fanSpeed := max 0 output
    let fanPub : MqttPublish :=
      if fanSpeed < 15 then
        ⟨config.broker, config.topics.FAN_DIMMER ++ "/on", .num 0⟩
      else
        ⟨config.broker, config.topics.FAN_DIMMER ++ "/on", .num fanSpeed⟩
    let r := setSeasonalValve configs states1 heatingId
      (getSeasonalValveState month output)
    let states2 := modifyState r.states heatingId
      (fun s => { s with isWorking := decide (0 < output) })
    ⟨states2, fanPub :: r.publishes, r.events ++ [⟨heatingId, .pidUpdated⟩]⟩
  | _, _ => ⟨states, [], []⟩

/-- From `src/unnamed/part_002` lines 751-768 (`loadSettingsFromDatabase`),
restricted to a single device: the stored string for
`setpoint_temperature` is applied whenever it exists and `parseFloat`
does not yield `NaN`; there is no range check.  The decimal parse is
abstracted: `none` means no stored row, `some none` a string that
parses to `NaN`, `some (some v)` a string that parses to the number
`v`. -/
def loadSetpointFromStore (stored : Option (Option ℚ)) (current : ℚ) : ℚ :=
  match stored with
  | some (some v) => v
  | _ => current

/-! Modbus layer, from `modbus-heating.config.ts`,
`modbus-registers.mapper.ts` and the second revision of
`modbus-slave.service.ts`. -/

/-- One row of the static Modbus device table
(`ModbusDeviceConfig` in `modbus.interface`). -/
structure ModbusDeviceConfig where
  deviceId : String
  unitId : ℕ
  enabled : Bool
deriving DecidableEq

/-- From `modbus-heating.config.ts` lines 242-274
(`MODBUS_HEATING_DEVICES`): units 1-20 enabled, 21-30 reserved. -/
def MODBUS_HEATING_DEVICES : List ModbusDeviceConfig :=
  [⟨"ШУК1", 1, true⟩, ⟨"ШУК2", 2, true⟩, ⟨"ШУК3", 3, true⟩,
   ⟨"ШУК4", 4, true⟩, ⟨"ШУК5", 5, true⟩, ⟨"ШУК6", 6, true⟩,
   ⟨"ШУК7", 7, true⟩, ⟨"ШУК8", 8, true⟩, ⟨"ШУК9", 9, true⟩,
   ⟨"ШУК10", 10, true⟩, ⟨"ШУК11", 11, true⟩, ⟨"ШУК12", 12, true⟩,
   ⟨"ШУК13", 13, true⟩, ⟨"ШУК14", 14, true⟩, ⟨"ШУК15", 15, true⟩,
   ⟨"ШУК16", 16, true⟩, ⟨"ШУК17", 17, true⟩, ⟨"ШУК18", 18, true⟩,
   ⟨"ШУК19", 19, true⟩, ⟨"ШУК20", 20, true⟩,
   ⟨"ШУК21", 21, false⟩, ⟨"ШУК22", 22, false⟩, ⟨"ШУК23", 23, false⟩,
   ⟨"ШУК24", 24, false⟩, ⟨"ШУК25", 25, false⟩, ⟨"ШУК26", 26, false⟩,
   ⟨"ШУК27", 27, false⟩, ⟨"ШУК28", 28, false⟩, ⟨"ШУК29", 29, false⟩,
   ⟨"ШУК30", 30, false⟩]

/-- From `modbus-registers.mapper.ts` lines 37-60: the mapper registers
only enabled devices in its `unitIdToDeviceId` map; `getDeviceId`
returns the device id of the enabled device with the given unit id. -/
def getDeviceId (unitId : ℕ) : Option String :=
  (MODBUS_HEATING_DEVICES.find? (fun d => d.enabled && d.unitId == unitId)).map
    (fun d => d.deviceId)

namespace MEMORY_SIZES

/-- From `modbus-heating.config.ts` lines 289-294 (`MEMORY_SIZES`):
16 discrete-input bits per device. -/
def DISCRETE_INPUTS : ℕ := 16

/-- MEMORY_SIZES.COILS: 16 coil bits per device. -/
def COILS : ℕ := 16

/-- MEMORY_SIZES.INPUT_REGISTERS: 10 input registers per device. -/
def INPUT_REGISTERS : ℕ := 10

/-- MEMORY_SIZES.HOLDING_REGISTERS: 30 holding registers per device. -/
def HOLDING_REGISTERS : ℕ := 30

end MEMORY_SIZES

/-- From `modbus-slave.service.ts` staged lines 2141-2411
(`MemoryAreaManager`): four memory areas per initialized unit id, sized
by `MEMORY_SIZES` via `initializeMemoryMap`/`createArea`.  The
big-endian byte buffers are abstracted to one cell per address: for
registers, `writeRegister` stores `value & 0xFFFF` with
`writeUInt16BE` at byte offset `address * 2` and `readRegister` reads
it back with `readUInt16BE`, so a register area is observably a map
from register address to a 16-bit value; for bit areas, `writeBit` and
`readBit` address the single bit `byteIndex = address / 8`,
`bitOffset = address % 8`, so a bit area is observably a map from bit
address to a bit. -/
structure ModbusMemory where
  holding : ℕ → ℕ → ℕ
  inputRegs : ℕ → ℕ → ℕ
  coils : ℕ → ℕ → Bool
  discrete : ℕ → ℕ → Bool

/-- From `modbus-slave.service.ts` lines 656-672
(`initializeMemoryMaps`) with lines 2151-2176 (`initializeMemoryMap`):
memory maps are created at startup exactly for the enabled devices of
`MODBUS_HEATING_DEVICES`, so `memoryMaps.has(unitId)` (the guard
behind every `getArea` lookup) holds exactly for those unit ids. -/
def unitInitialized (unitId : ℕ) : Bool :=
  (MODBUS_HEATING_DEVICES.find? (fun d => d.enabled && d.unitId == unitId)).isSome

/-- From `modbus-slave.service.ts` staged lines 2326-2339
(`MemoryAreaManager.readRegister`) on the holding area: `undefined`
when `getArea` finds no map for the unit or the address is outside
`area.size` (30 holding registers); otherwise the stored 16-bit
value. -/
def readHoldingReg (m : ModbusMemory) (unitId addr : ℕ) : Option ℕ :=
  if unitInitialized unitId && addr < MEMORY_SIZES.HOLDING_REGISTERS then
    some (m.holding unitId addr)
  else none

/-- From `modbus-slave.service.ts` staged lines 2300-2317
(`MemoryAreaManager.writeRegister`) on the holding area: missing-map
and out-of-size writes fail without effect; otherwise
`value & 0xFFFF` (here `value % 65536`) is stored at the register
address. -/
def writeHoldingReg (m : ModbusMemory) (unitId addr value : ℕ) : ModbusMemory :=
  if unitInitialized unitId && addr < MEMORY_SIZES.HOLDING_REGISTERS then
    { m with holding := fun u a =>
        if u = unitId ∧ a = addr then value % 65536 else m.holding u a }
  else m

/-- From `modbus-slave.service.ts` staged lines 2276-2290
(`MemoryAreaManager.readBit`) on the coil area: `undefined` when the
unit has no map or the bit address is outside `area.size` (16 coil
bits); otherwise the stored bit. -/
def readCoilBit (m : ModbusMemory) (unitId addr : ℕ) : Option Bool :=
  if unitInitialized unitId && addr < MEMORY_SIZES.COILS then
    some (m.coils unitId addr)
  else none

/-- From `modbus-slave.service.ts` staged lines 2243-2267
(`MemoryAreaManager.writeBit`) on the coil area: missing-map and
out-of-size writes fail without effect; otherwise the bit at the
address is set or cleared. -/
def writeCoilBit (m : ModbusMemory) (unitId addr : ℕ) (value : Bool) : ModbusMemory :=
  if unitInitialized unitId && addr < MEMORY_SIZES.COILS then
    { m with coils := fun u a =>
        if u = unitId ∧ a = addr then value else m.coils u a }
  else m

/-- From `modbus-slave.service.ts` staged lines 2276-2290
(`MemoryAreaManager.readBit`) on the discrete-input area (16 bits per
unit). -/
def readDiscreteBit (m : ModbusMemory) (unitId addr : ℕ) : Option Bool :=
  if unitInitialized unitId && addr < MEMORY_SIZES.DISCRETE_INPUTS then
    some (m.discrete unitId addr)
  else none

/-- From `modbus-slave.service.ts` lines 1043-1047
(`getUnitIdFromHoldingRegisterAddress`): flat holding address to
(unit id, relative address), stride 30. -/
def getUnitIdFromHoldingRegisterAddress (address : ℕ) : ℕ × ℕ :=
  (address / 30 + 1, address % 30)

/-- From `modbus-slave.service.ts` lines 1032-1036
(`getUnitIdFromInputRegisterAddress`): flat input-register address to
(unit id, relative address), stride 20. -/
def getUnitIdFromInputRegisterAddress (address : ℕ) : ℕ × ℕ :=
  (address / 20 + 1, address % 20)

/-- From `modbus-slave.service.ts` staged lines 2064-2072 (`fromInt16`,
bit-field utilities): values at or above `0x8000` decode to negative
INT16 by subtracting `0x10000`; the source's `value < 0` early return
is vacuous for the unsigned register values passed here (the input is
a natural number). -/
def fromInt16 (value : ℕ) : ℤ :=
  if 32768 ≤ value then (value : ℤ) - 65536 else value

/-- From `modbus-slave.service.ts` staged lines 2130-2132
(`removeScale`, bit-field utilities): divide the scale back out. -/
def removeScale (value scale : ℚ) : ℚ := value / scale

/-- Value carried by a heating change or command parameter: the source
passes either numbers or booleans (`value: any`). -/
inductive ChangeValue
  | num (value : ℚ)
  | flag (value : Bool)
deriving DecidableEq

/-- One pending change produced by the mapper for the heating service:
device id, parameter name and value. -/
structure HeatingChange where
  deviceId : String
  parameter : String
  value : ChangeValue
deriving DecidableEq

/-- From `modbus-registers.mapper.ts` lines 222-264
(`readHoldingRegisterChange`): relative address 0 is the setpoint
(`fromInt16` then `removeScale` by 10), relative address 1 the
hysteresis; every other address yields no change.  The
`isNaN`/`isFinite` guard of the source never fires for 16-bit raw
values and is dropped. -/
def readHoldingRegisterChange (unitId addr value : ℕ) : Option HeatingChange :=
  match getDeviceId unitId with
  | none => none
  | some deviceId =>
    if addr = 0 then
      some ⟨deviceId, "setpointTemperature", .num (removeScale (fromInt16 value : ℚ) 10)⟩
    else if addr = 1 then
      some ⟨deviceId, "hysteresis", .num (removeScale (value : ℚ) 10)⟩
    else none

/-- From `modbus-registers.mapper.ts` lines 273-301 (`readCoilChange`):
coil 0 toggles auto control, coil 1 is the reserved manual override;
other addresses yield no change. -/
def readCoilChange (unitId addr : ℕ) (value : Bool) : Option HeatingChange :=
  match getDeviceId unitId with
  | none => none
  | some deviceId =>
    if addr = 0 then some ⟨deviceId, "autoControlEnabled", .flag value⟩
    else if addr = 1 then some ⟨deviceId, "manualOverride", .flag value⟩
    else none

/-- Command message assembled by the mapper from the COMMAND registers. -/
structure CommandMsg where
  deviceId : String
  command : ℕ
  param1 : ℕ
  param2 : ℕ
deriving DecidableEq

namespace ModbusCommand

/-- From the current `modbus.interface.ts` (`src/unnamed/part_004`
lines 46-50, `ModbusCommand` enum): the COMMAND register is a bit
word; `NOP = 0` means no bits set. -/
def NOP : ℕ := 0

/-- ModbusCommand.ENABLE_AUTO_CONTROL: bit 1, value 2 (part_004
line 48). -/
def ENABLE_AUTO_CONTROL : ℕ := 2

/-- ModbusCommand.DISABLE_AUTO_CONTROL: bit 2, value 4 (part_004
line 49). -/
def DISABLE_AUTO_CONTROL : ℕ := 4

end ModbusCommand

/-- From `modbus-registers.mapper.ts` lines 308-349 (`readCommand`):
read the COMMAND word (relative holding address 10) and the two
parameter registers; `0` is NOP (`none`); bit 2 (`value & 4`) yields
command value `4` with priority, else bit 1 (`value & 2`) yields
command value `2`; any other non-zero pattern yields `none`. -/
def readCommand (m : ModbusMemory) (unitId : ℕ) : Option CommandMsg :=
  match getDeviceId unitId with
  | none => none
  | some deviceId =>
    let commandWord := (readHoldingReg m unitId 10).getD 0
    let param1 := (readHoldingReg m unitId 11).getD 0
    let param2 := (readHoldingReg m unitId 12).getD 0
    if commandWord = 0 then none
    else if commandWord &&& 4 ≠ 0 then some ⟨deviceId, 4, param1, param2⟩
    else if commandWord &&& 2 ≠ 0 then some ⟨deviceId, 2, param1, param2⟩
    else none

/-- From `modbus-registers.mapper.ts` lines 355-357 (`clearCommand`):
zero the COMMAND register. -/
def clearCommand (m : ModbusMemory) (unitId : ℕ) : ModbusMemory :=
  writeHoldingReg m unitId 10 0

/-- From `modbus-slave.service.ts` lines 1735-1780 (`applyHeatingChange`,
second revision): dispatch a mapper change to the heating service;
`autoControlEnabled` expects a boolean, `setpointTemperature` a number
pre-validated against `[5, 35]`; any other parameter is logged and
dropped. -/
def applyHeatingChange (configs : ConfigsTable) (states : StatesTable)
    (deviceId parameter : String) (value : ChangeValue) : OpResult :=
  if parameter = "autoControlEnabled" then
    match value with
    | .flag b =>
      if b then enableAutoControl configs states deviceId
      else disableAutoControl configs states deviceId
    | .num _ => ⟨states, [], []⟩
  else if parameter = "setpointTemperature" then
    match value with
    | .num t =>
      if t < 5 ∨ t > 35 then ⟨states, [], []⟩
      else setTemperature states deviceId t
    | .flag _ => ⟨states, [], []⟩
  else ⟨states, [], []⟩

/-- Combined result of a Modbus write handler: register plane, heating
state table, publishes and events. -/
structure SlaveResult where
  mem : ModbusMemory
  states : StatesTable
  publishes : List MqttPublish
  events : List HeatingEvent

/-- From `modbus-slave.service.ts` lines 1785-1819 (`processCommand`,
second revision): read the command via the mapper; compare the result
against the bit-valued `ModbusCommand` enum of the current interface
(`ENABLE_AUTO_CONTROL = 2`, `DISABLE_AUTO_CONTROL = 4`, part_004);
`0` and unknown values are logged only; the COMMAND register is
cleared whenever the mapper returned a command. -/
def processCommand (configs : ConfigsTable) (m : ModbusMemory)
    (states : StatesTable) (unitID : ℕ) : SlaveResult :=
  match readCommand m unitID with
  | none => ⟨m, states, [], []⟩
  | some cmd =>
    let r : OpResult :=
      if cmd.command = ModbusCommand.ENABLE_AUTO_CONTROL then
        enableAutoControl configs states cmd.deviceId
      else if cmd.command = ModbusCommand.DISABLE_AUTO_CONTROL then
        disableAutoControl configs states cmd.deviceId
      else ⟨states, [], []⟩
    ⟨clearCommand m unitID, r.states, r.publishes, r.events⟩

/-- Normal (non-exception) FC06 echo response: the handler copies the
request address and value into the response body. -/
structure Fc06Response where
  address : ℕ
  value : ℕ
deriving DecidableEq

/-- Result of the FC06 handler: plane, states, effects and the echo
response (`none` when the handler returned early). -/
structure Fc06Result where
  mem : ModbusMemory
  states : StatesTable
  publishes : List MqttPublish
  events : List HeatingEvent
  response : Option Fc06Response

/-- From `modbus-slave.service.ts` lines 1215-1262
(`handleWriteSingleRegister`, second revision): the effective unit is
derived from the flat address by stride 30 (the MBAP `unitId` of the
request is logged only); out-of-slice relative addresses return without
a response; otherwise the register is written, the mapper change (if
any) applied through `applyHeatingChange`, the COMMAND register
processed when the relative address is 10, and the request echoed.
The handler has no Modbus-exception path. -/
def handleWriteSingleRegister (configs : ConfigsTable) (m : ModbusMemory)
    (states : StatesTable) (_mbapUnitId address value : ℕ) : Fc06Result :=
  let actualUnitId := (getUnitIdFromHoldingRegisterAddress address).1
  let relativeAddress := (getUnitIdFromHoldingRegisterAddress address).2
  if 30 ≤ relativeAddress then ⟨m, states, [], [], none⟩
  else
    let m1 := writeHoldingReg m actualUnitId relativeAddress value
    let r : OpResult :=
      match readHoldingRegisterChange actualUnitId relativeAddress value with
      | some c => applyHeatingChange configs states c.deviceId c.parameter c.value
      | none => ⟨states, [], []⟩
    if relativeAddress = 10 then
      let p := processCommand configs m1 r.states actualUnitId
      ⟨p.mem, p.states, r.publishes ++ p.publishes, r.events ++ p.events,
       some ⟨address, value⟩⟩
    else ⟨m1, r.states, r.publishes, r.events, some ⟨address, value⟩⟩

/-- From `modbus-slave.service.ts` lines 963-1025
(`handleReadHoldingRegisters`, second revision): the effective unit is
derived from the flat address by stride 30; each requested register
beyond the 30-register slice reads as `0`; otherwise the value comes
from the memory manager (missing values read as `0`). -/
def handleReadHoldingRegisters (m : ModbusMemory) (address quantity : ℕ) : List ℕ :=
  let actualUnitId := (getUnitIdFromHoldingRegisterAddress address).1
  let relativeAddress := (getUnitIdFromHoldingRegisterAddress address).2
  (List.range quantity).map (fun i =>
    if 30 ≤ relativeAddress + i then 0
    else (readHoldingReg m actualUnitId (relativeAddress + i)).getD 0)

/-- From `modbus-slave.service.ts` lines 893-910 (`handleReadCoils`,
second revision): coils are read at the raw request address under the
MBAP `unitId` of the request; missing bits read as `false`.  No flat
stride remapping is applied. -/
def handleReadCoils (m : ModbusMemory) (unitId address quantity : ℕ) : List Bool :=
  (List.range quantity).map (fun i =>
    (readCoilBit m unitId (address + i)).getD false)

/-- From `modbus-slave.service.ts` lines 917-957
(`handleReadDiscreteInputs`, second revision): discrete inputs are read
at the raw request address under the MBAP `unitId`; bit addresses at or
above 16 read as `false`; missing bits read as `false`.  No flat stride
remapping is applied. -/
def handleReadDiscreteInputs (m : ModbusMemory) (unitId address quantity : ℕ) :
    List Bool :=
  (List.range quantity).map (fun i =>
    let bitAddress := address + i
    if 16 ≤ bitAddress then false
    else (readDiscreteBit m unitId bitAddress).getD false)

/-- From `modbus-slave.service.ts` lines 1190-1209
(`handleWriteSingleCoil`, second revision): the bit is written at the
raw request address under the MBAP `unitId`, and the mapper coil change
(if any) applied.  No flat stride remapping is applied. -/
def handleWriteSingleCoil (configs : ConfigsTable) (m : ModbusMemory)
    (states : StatesTable) (unitId address : ℕ) (value : Bool) : SlaveResult :=
  let m1 := writeCoilBit m unitId address value
  let r : OpResult :=
    match readCoilChange unitId address value with
    | some c => applyHeatingChange configs states c.deviceId c.parameter c.value
    | none => ⟨states, [], []⟩
  ⟨m1, r.states, r.publishes, r.events⟩

/-- The flat stride-16 addressing rule asserted by the spec for coils
and discrete inputs (§4.6): effective unit id `⌊addr / 16⌋ + 1`,
relative bit `addr mod 16`, independent of the MBAP unit id.  Stated
from the spec's words, for comparison with the source handlers. -/
def coilsStrideRuleRead (m : ModbusMemory) (address quantity : ℕ) : List Bool :=
  (List.range quantity).map (fun i =>
    (readCoilBit m ((address + i) / 16 + 1) ((address + i) % 16)).getD false)

/-! Concrete fixtures used by witnesses and counterexamples. -/

/-- Modelled from the spec: concrete regulator gains and clamp for a
device of the registry (`heating.config.ts` is absent from `src/`);
integral and previous error start at 0. -/
def pidSettings0 : HeatingPIDSettings := ⟨2, 1 / 10, 1 / 2, 0, 100, 0, 0⟩

/-- Modelled from the spec: one device config with hysteresis `0.5` and
the safety limits `freeze_limit = 5`, `overheat_limit = 35` of §3 and
scenario S5. -/
def heatingConfig0 : HeatingConfig :=
  ⟨"heating", ⟨"sensors/temp", "devices/fan", "devices/valve"⟩,
   pidSettings0, ⟨1 / 2, 5, 35⟩⟩

/-- Modelled from the spec: a three-device config table keyed by the
device ids of the Modbus device table. -/
def heatingConfigs0 : ConfigsTable := fun heatingId =>
  if heatingId = "ШУК1" ∨ heatingId = "ШУК2" ∨ heatingId = "ШУК3" then
    some heatingConfig0
  else none

/-- Initial per-device state as built by the service constructor
(`heating.service.ts` lines 77-95): everything off, setpoint 20. -/
def baseState0 : HeatingInternalState :=
  ⟨0, .closed, 0, 20, 0, false, false, false, false, pidSettings0⟩

/-- State table holding `baseState0` for the three fixture devices. -/
def states0 : StatesTable := fun heatingId =>
  if heatingId = "ШУК1" ∨ heatingId = "ШУК2" ∨ heatingId = "ШУК3" then
    some baseState0
  else none

/-- Device 3 measured at 36 °C (above the 35 °C overheat limit) with
auto control enabled: the failing input of scenario S5. -/
def overheatState3 : HeatingInternalState :=
  { baseState0 with currentTemperature := 36, autoControlEnabled := true }

/-- State table with the overheating device 3. -/
def overheatStates : StatesTable := fun heatingId =>
  if heatingId = "ШУК3" then some overheatState3 else states0 heatingId

/-- Device 1 in emergency stop (fan already off). -/
def emergencyState1 : HeatingInternalState :=
  { baseState0 with isEmergencyStop := true }

/-- State table with device 1 in emergency stop. -/
def emergencyStates : StatesTable := fun heatingId =>
  if heatingId = "ШУК1" then some emergencyState1 else states0 heatingId

/-- Device 1 one degree over setpoint (effective error `-1`, not in the
dead zone because the device is not working) with integral 100. -/
def overTempState1 : HeatingInternalState :=
  { baseState0 with currentTemperature := 21,
                    pidState := { pidSettings0 with integral := 100 } }

/-- State table with the over-temperature device 1. -/
def overTempStates : StatesTable := fun heatingId =>
  if heatingId = "ШУК1" then some overTempState1 else states0 heatingId

/-- Device 1 with auto control enabled (for the COMMAND-word tests). -/
def autoOnState1 : HeatingInternalState :=
  { baseState0 with autoControlEnabled := true }

/-- State table with device 1 in auto mode. -/
def autoOnStates : StatesTable := fun heatingId =>
  if heatingId = "ШУК1" then some autoOnState1 else states0 heatingId

/-- All-zero register plane. -/
def mem0 : ModbusMemory :=
  ⟨fun _ _ => 0, fun _ _ => 0, fun _ _ => false, fun _ _ => false⟩

/-- Register plane whose only set bit is coil 0 of unit 2. -/
def memCoil2 : ModbusMemory :=
  ⟨fun _ _ => 0, fun _ _ => 0, fun u a => decide (u = 2 ∧ a = 0), fun _ _ => false⟩

/-! Helper lemmas. -/

/-- Point update read back at its own key. -/
theorem modifyState_self (states : StatesTable) (heatingId : String)
    (f : HeatingInternalState → HeatingInternalState) :
    modifyState states heatingId f heatingId = (states heatingId).map f := by
  simp [modifyState]

/-- Observations that ignore the valve state pass through
`setSeasonalValve` unchanged. -/
theorem setSeasonalValve_states_map {α : Type} (configs : ConfigsTable)
    (states : StatesTable) (heatingId : String) (b : Bool) (k : String)
    (g : HeatingInternalState → α)
    (hg : ∀ s v, g { s with valveState := v } = g s) :
    ((setSeasonalValve configs states heatingId b).states k).map g
      = (states k).map g := by
  unfold setSeasonalValve
  cases hs : states heatingId with
  | none => rfl
  | some st =>
    cases hc : configs heatingId with
    | none => rfl
    | some cfg =>
      dsimp only
      split <;> split <;>
        first
          | rfl
          | (by_cases hk : k = heatingId
             · subst hk
               simp [modifyState, hs, hg]
             · simp [modifyState, hk])

/-- Collapsing two guarded decays into one: for a nonnegative factor,
decaying, flooring at zero, and decaying again is the same as decaying
twice and flooring once. -/
theorem max_zero_double_decay (x c : ℚ) (hc : 0 ≤ c) :
    max 0 (x * c) * c = max 0 (x * c * c) := by
  rcases le_total (x * c) 0 with h | h
  · rw [max_eq_left h, zero_mul, eq_comm, max_eq_left]
    exact mul_nonpos_of_nonpos_of_nonneg h hc
  · rw [max_eq_right h, eq_comm, max_eq_right]
    exact mul_nonneg h hc

/-- Flat base address of a unit decodes to relative address 0. -/
theorem getUnit_holding_base (u : ℕ) (hu : 1 ≤ u) :
    getUnitIdFromHoldingRegisterAddress ((u - 1) * 30) = (u, 0) := by
  unfold getUnitIdFromHoldingRegisterAddress
  rw [Prod.mk.injEq]
  constructor <;> omega

/-- Flat COMMAND address of a unit decodes to relative address 10. -/
theorem getUnit_holding_command (u : ℕ) (hu : 1 ≤ u) :
    getUnitIdFromHoldingRegisterAddress ((u - 1) * 30 + 10) = (u, 10) := by
  unfold getUnitIdFromHoldingRegisterAddress
  rw [Prod.mk.injEq]
  constructor <;> omega

/-- A unit id with a registered device id has an initialized memory
map. -/
theorem unitInitialized_of_getDeviceId (u : ℕ) (d : String)
    (h : getDeviceId u = some d) : unitInitialized u = true := by
  unfold getDeviceId at h
  unfold unitInitialized
  cases hf : MODBUS_HEATING_DEVICES.find? (fun x => x.enabled && x.unitId == u) with
  | none => rw [hf] at h; exact absurd h (by simp)
  | some x => rfl

/-- Reading back a just-written holding register returns the stored
16-bit value. -/
theorem readHoldingReg_writeHoldingReg_self (m : ModbusMemory) (u addr v : ℕ)
    (hinit : unitInitialized u = true) (ha : addr < 30) :
    readHoldingReg (writeHoldingReg m u addr v) u addr = some (v % 65536) := by
  unfold readHoldingReg writeHoldingReg
  rw [hinit]
  simp [MEMORY_SIZES.HOLDING_REGISTERS, ha]

/-! Claim theorems. -/

/-- C3 counterexample: a stored string parsing to `100` (outside
`[5, 35]`) does not keep the default `20`; the load applies it
unconditionally, and the setpoint invariant is violated right after
the startup load. -/
theorem loadSetpoint_out_of_range_counterexample :
    loadSetpointFromStore (some (some 100)) 20 = 100 ∧
    loadSetpointFromStore (some (some 100)) 20 ≠ 20 ∧
    ¬ loadSetpointFromStore (some (some 100)) 20 ≤ 35 := by
  norm_num [loadSetpointFromStore]

/-- C3 (amended): `loadSettingsFromDatabase` overwrites the in-memory
setpoint with every stored value that parses to a number, with no
range check against `[5, 35]`; missing rows and `NaN` parses keep the
current value. -/
theorem loadSetpoint_overwrites_unconditionally (v current : ℚ) :
    loadSetpointFromStore (some (some v)) current = v ∧
    loadSetpointFromStore none current = current ∧
    loadSetpointFromStore (some none) current = current :=
  ⟨rfl, rfl, rfl⟩

/-- C9: the seasonal valve target is a pure function of month and PID
output: months 11, 12, 1, 2, 3 give Open for every output; months
6, 7, 8 give Closed for every output; months 4, 5, 9, 10 give Open
exactly when the PID output is positive. -/
theorem getSeasonalValveState_seasonal_cases (month : ℕ) (pidOutput : ℚ) :
    ((month = 11 ∨ month = 12 ∨ month = 1 ∨ month = 2 ∨ month = 3) →
      getSeasonalValveState month pidOutput = true) ∧
    ((month = 6 ∨ month = 7 ∨ month = 8) →
      getSeasonalValveState month pidOutput = false) ∧
    ((month = 4 ∨ month = 5 ∨ month = 9 ∨ month = 10) →
      (getSeasonalValveState month pidOutput = true ↔ 0 < pidOutput)) := by
  refine ⟨fun h => ?_, fun h => ?_, fun h => ?_⟩
  · rcases h with h | h | h | h | h <;> subst h <;> simp [getSeasonalValveState]
  · rcases h with h | h | h <;> subst h <;> simp [getSeasonalValveState]
  · rcases h with h | h | h | h <;> subst h <;> simp [getSeasonalValveState]

/-- C9 witness: December is always Open, July always Closed, April
follows the PID output. -/
theorem getSeasonalValveState_seasonal_cases_witness :
    getSeasonalValveState 12 0 = true ∧
    getSeasonalValveState 7 50 = false ∧
    (getSeasonalValveState 4 20 = true ↔ (0 : ℚ) < 20) :=
  ⟨(getSeasonalValveState_seasonal_cases 12 0).1 (by norm_num),
   (getSeasonalValveState_seasonal_cases 7 50).2.1 (by norm_num),
   (getSeasonalValveState_seasonal_cases 4 20).2.2 (by norm_num)⟩

/-- C10: every public command operation invoked with a device id that
is not in the state table is a total no-op: the state table is
returned unchanged and no publish or event is produced. -/
theorem unknown_device_commands_noop (configs : ConfigsTable)
    (states : StatesTable) (heatingId : String) (t s : ℚ)
    (h : states heatingId = none) :
    setTemperature states heatingId t = ⟨states, [], []⟩ ∧
    setFanSpeed configs states heatingId s = ⟨states, [], []⟩ ∧
    enableAutoControl configs states heatingId = ⟨states, [], []⟩ ∧
    disableAutoControl configs states heatingId = ⟨states, [], []⟩ ∧
    emergencyStop configs states heatingId = ⟨states, [], []⟩ ∧
    resetEmergencyStop states heatingId = ⟨states, [], []⟩ := by
  refine ⟨?_, ?_, ?_, ?_, ?_, ?_⟩
  · unfold setTemperature; rw [h]
  · unfold setFanSpeed; rw [h]
  · unfold enableAutoControl; rw [h]
  · unfold disableAutoControl; rw [h]
  · unfold emergencyStop; rw [h]
  · unfold resetEmergencyStop; rw [h]

/-- C10 witness: the id `HT99` is not in the fixture table; all six
commands leave the table untouched with no effects. -/
theorem unknown_device_commands_noop_witness :
    setTemperature states0 "HT99" 22 = ⟨states0, [], []⟩ ∧
    setFanSpeed heatingConfigs0 states0 "HT99" 42 = ⟨states0, [], []⟩ ∧
    enableAutoControl heatingConfigs0 states0 "HT99" = ⟨states0, [], []⟩ ∧
    disableAutoControl heatingConfigs0 states0 "HT99" = ⟨states0, [], []⟩ ∧
    emergencyStop heatingConfigs0 states0 "HT99" = ⟨states0, [], []⟩ ∧
    resetEmergencyStop states0 "HT99" = ⟨states0, [], []⟩ :=
  unknown_device_commands_noop heatingConfigs0 states0 "HT99" 22 42 rfl

/-- C2 counterexample: device 1 is in emergency stop, yet
`setFanSpeed 50` (a valid speed) leaves `emergency_stop = true` with
`fan_output = 50 > 0`, so the emergency invariant is not preserved by
`SetFanSpeed`. -/
theorem setFanSpeed_emergency_invariant_counterexample :
    ((setFanSpeed heatingConfigs0 emergencyStates "ШУК1" 50).states "ШУК1").map
        (fun s => (s.isEmergencyStop, s.currentFanSpeed)) = some (true, 50) ∧
    (0 : ℚ) ≤ 50 ∧ (50 : ℚ) ≤ 100 ∧ (0 : ℚ) < 50 := by
  refine ⟨?_, by norm_num, by norm_num, by norm_num⟩
  norm_num [setFanSpeed, emergencyStates, emergencyState1, heatingConfigs0,
    modifyState, baseState0]

/-- C2 (amended): `setFanSpeed` never consults `emergency_stop`: for
every valid speed `0 ≤ s ≤ 100` it sets `fan_output = pid_output = s`
and leaves every other field, including `emergency_stop`, unchanged;
hence applying it to an emergency-stopped device leaves the device
with `emergency_stop = true` and `fan_output = s`. -/
theorem setFanSpeed_ignores_emergencyStop (configs : ConfigsTable)
    (states : StatesTable) (heatingId : String) (st : HeatingInternalState)
    (cfg : HeatingConfig) (speed : ℚ) (hst : states heatingId = some st)
    (hcfg : configs heatingId = some cfg) (h0 : 0 ≤ speed) (h1 : speed ≤ 100) :
    (setFanSpeed configs states heatingId speed).states heatingId
      = some { st with currentFanSpeed := speed, pidOutput := speed } := by
  unfold setFanSpeed
  rw [hst, hcfg]
  dsimp only
  rw [if_neg (by push_neg; exact ⟨h0, h1⟩ : ¬ (speed < 0 ∨ speed > 100))]
  dsimp only
  rw [modifyState_self, hst]
  rfl

/-- C2 witness: instantiating the amended theorem on the
emergency-stopped device 1 with speed 50. -/
theorem setFanSpeed_ignores_emergencyStop_witness :
    (setFanSpeed heatingConfigs0 emergencyStates "ШУК1" 50).states "ШУК1"
      = some { emergencyState1 with currentFanSpeed := 50, pidOutput := 50 } :=
  setFanSpeed_ignores_emergencyStop heatingConfigs0 emergencyStates "ШУК1"
    emergencyState1 heatingConfig0 50 rfl rfl (by norm_num) (by norm_num)

/-- C4 counterexample: with integral 100 and effective error `-1`, the
tick of the database revision leaves the integral at
`89.3475 = max(0, 99 × 0.95) × 0.95` (the 0.95 decay applied twice),
not at the claimed `max(0, (100 - 1) × 0.95) = 94.05`. -/
theorem integral_single_decay_counterexample :
    effectiveErrorDb heatingConfig0 overTempState1 = -1 ∧
    ((runPIDControlDb heatingConfigs0 overTempStates 1 "ШУК1").states "ШУК1").map
        (fun s => s.pidState.integral) = some (893475 / 10000) ∧
    (893475 / 10000 : ℚ)
      ≠ max 0 ((overTempState1.pidState.integral
          + effectiveErrorDb heatingConfig0 overTempState1) * (95 / 100)) := by
  refine ⟨?_, ?_, ?_⟩
  · norm_num [effectiveErrorDb, overTempState1, baseState0, heatingConfig0,
      pidSettings0]
  · norm_num +decide [runPIDControlDb, effectiveErrorDb, setSeasonalValve,
      getSeasonalValveState, modifyState, overTempStates, overTempState1,
      states0, heatingConfigs0, heatingConfig0, pidSettings0, baseState0,
      max_def]
  · norm_num [effectiveErrorDb, overTempState1, baseState0, heatingConfig0,
      pidSettings0, max_def]

/-- C4 (amended): in a tick of the database revision with effective
error `e < 0`, the integral is updated to `I + e` and the
`max(0, I × 0.95)` decay is applied twice (once right after the
accumulation, once after the output clamp), so the integral after the
tick equals `max(0, (I_before + e) × 0.95 × 0.95)`. -/
theorem runPIDControlDb_integral_double_decay (configs : ConfigsTable)
    (states : StatesTable) (month : ℕ) (heatingId : String)
    (st : HeatingInternalState) (cfg : HeatingConfig)
    (hst : states heatingId = some st) (hcfg : configs heatingId = some cfg)
    (hneg : effectiveErrorDb cfg st < 0) :
    ((runPIDControlDb configs states month heatingId).states heatingId).map
        (fun s => s.pidState.integral)
      = some (max 0 ((st.pidState.integral + effectiveErrorDb cfg st)
          * (95 / 100) * (95 / 100))) := by
  unfold runPIDControlDb
  rw [hst, hcfg]
  dsimp only
  rw [modifyState_self, Option.map_map, setSeasonalValve_states_map]
  · rw [modifyState_self, Option.map_map, hst]
    dsimp only [Option.map, Function.comp]
    rw [if_pos hneg, if_pos hneg]
    rw [max_zero_double_decay _ _ (by norm_num),
      max_eq_right (le_max_left 0 _)]
  · intro s v
    rfl

/-- C4 witness: instantiating the amended theorem on the
over-temperature device 1 (integral 100, effective error `-1`). -/
theorem runPIDControlDb_integral_double_decay_witness :
    ((runPIDControlDb heatingConfigs0 overTempStates 1 "ШУК1").states "ШУК1").map
        (fun s => s.pidState.integral)
      = some (max 0 ((overTempState1.pidState.integral
          + effectiveErrorDb heatingConfig0 overTempState1)
          * (95 / 100) * (95 / 100))) :=
  runPIDControlDb_integral_double_decay heatingConfigs0 overTempStates 1 "ШУК1"
    overTempState1 heatingConfig0 rfl rfl
    (by norm_num [effectiveErrorDb, overTempState1, baseState0,
      heatingConfig0, pidSettings0])

/-- C5: for an enabled device with unit id `u` and raw value
`v ∈ [50, 350]`, an FC06 write of `v` at flat holding address
`(u-1) × 30` sets the device's setpoint to `v / 10`, and a subsequent
FC03 read of one register at the same flat address returns `[v]`. -/
theorem fc06_setpoint_roundtrip (configs : ConfigsTable) (m : ModbusMemory)
    (states : StatesTable) (mbap u v : ℕ) (d : String)
    (st : HeatingInternalState) (hu : 1 ≤ u) (hd : getDeviceId u = some d)
    (hst : states d = some st) (hv1 : 50 ≤ v) (hv2 : v ≤ 350) :
    ((handleWriteSingleRegister configs m states mbap ((u - 1) * 30) v).states d).map
        (fun s => s.setpointTemperature) = some ((v : ℚ) / 10) ∧
    handleReadHoldingRegisters
        (handleWriteSingleRegister configs m states mbap ((u - 1) * 30) v).mem
        ((u - 1) * 30) 1 = [v] := by
  have hinit : unitInitialized u = true := unitInitialized_of_getDeviceId u d hd
  have hv32 : v < 32768 := by omega
  have hq5 : ¬ ((v : ℚ) / 10 < 5) := by
    rw [not_lt, le_div_iff₀ (by norm_num : (0 : ℚ) < 10)]
    have : (50 : ℚ) ≤ (v : ℚ) := by exact_mod_cast hv1
    linarith
  have hq35 : ¬ ((v : ℚ) / 10 > 35) := by
    rw [not_lt, div_le_iff₀ (by norm_num : (0 : ℚ) < 10)]
    have : (v : ℚ) ≤ 350 := by exact_mod_cast hv2
    linarith
  have hfi : fromInt16 v = (v : ℤ) := by
    unfold fromInt16
    rw [if_neg (by omega : ¬ 32768 ≤ v)]
  have hchange : readHoldingRegisterChange u 0 v
      = some ⟨d, "setpointTemperature", ChangeValue.num (((v : ℤ) : ℚ) / 10)⟩ := by
    simp [readHoldingRegisterChange, removeScale, hd, hfi]
  have happly : applyHeatingChange configs states d "setpointTemperature"
        (ChangeValue.num (((v : ℤ) : ℚ) / 10))
      = ⟨modifyState states d
           (fun s => { s with setpointTemperature := ((v : ℤ) : ℚ) / 10 }), [],
         [⟨d, HeatingEventKind.setpointChanged⟩]⟩ := by
    simp +decide [applyHeatingChange, setTemperature, hst, hq5, hq35,
      Int.cast_natCast]
  unfold handleWriteSingleRegister
  rw [getUnit_holding_base u hu]
  dsimp only
  rw [if_neg (by omega : ¬ (30 ≤ 0)), if_neg (by omega : ¬ ((0 : ℕ) = 10)),
    hchange]
  dsimp only
  rw [happly]
  constructor
  · dsimp only
    rw [modifyState_self, hst]
    dsimp only [Option.map]
    norm_num
  · unfold handleReadHoldingRegisters
    rw [getUnit_holding_base u hu]
    dsimp only
    simp only [List.range_succ, List.range_zero, List.nil_append, List.map_cons,
      List.map_nil, Nat.add_zero]
    rw [if_neg (by omega : ¬ (30 ≤ 0))]
    rw [readHoldingReg_writeHoldingReg_self m u 0 v hinit (by omega),
      Nat.mod_eq_of_lt (by omega : v < 65536)]
    rfl

/-- C5 witness: scenario S1 — FC06 at flat address 30 with value 225
gives device 2 setpoint `22.5` and the FC03 read-back `[225]`. -/
theorem fc06_setpoint_roundtrip_witness :
    ((handleWriteSingleRegister heatingConfigs0 mem0 states0 0 30 225).states "ШУК2").map
        (fun s => s.setpointTemperature) = some ((225 : ℚ) / 10) ∧
    handleReadHoldingRegisters
        (handleWriteSingleRegister heatingConfigs0 mem0 states0 0 30 225).mem
        30 1 = [225] :=
  fc06_setpoint_roundtrip heatingConfigs0 mem0 states0 0 2 225 "ШУК2" baseState0
    (by norm_num) rfl rfl (by norm_num) (by norm_num)

/-- C6: a write to a registered device's COMMAND register (relative
address 10) with bit 2 set (`value & 4 ≠ 0`) dispatches
`disableAutoControl` — also when bit 1 is set too, so DisableAuto wins
for value 6 — and a write with only bit 1 set (`value & 2 ≠ 0`,
`value & 4 = 0`) dispatches `enableAutoControl`; in both cases the
handler's result is exactly that service call's result, and the
COMMAND register reads back 0 afterwards. -/
theorem commandWord_bit_dispatch (configs : ConfigsTable) (m : ModbusMemory)
    (states : StatesTable) (mbap u v : ℕ) (d : String)
    (hu : 1 ≤ u) (hd : getDeviceId u = some d) (hv16 : v < 65536) :
    (v &&& 4 ≠ 0 →
      (handleWriteSingleRegister configs m states mbap ((u - 1) * 30 + 10) v).states
          = (disableAutoControl configs states d).states ∧
      (handleWriteSingleRegister configs m states mbap ((u - 1) * 30 + 10) v).publishes
          = (disableAutoControl configs states d).publishes ∧
      (handleWriteSingleRegister configs m states mbap ((u - 1) * 30 + 10) v).events
          = (disableAutoControl configs states d).events ∧
      readHoldingReg
          (handleWriteSingleRegister configs m states mbap ((u - 1) * 30 + 10) v).mem
          u 10 = some 0) ∧
    (v &&& 4 = 0 → v &&& 2 ≠ 0 →
      (handleWriteSingleRegister configs m states mbap ((u - 1) * 30 + 10) v).states
          = (enableAutoControl configs states d).states ∧
      (handleWriteSingleRegister configs m states mbap ((u - 1) * 30 + 10) v).publishes
          = (enableAutoControl configs states d).publishes ∧
      (handleWriteSingleRegister configs m states mbap ((u - 1) * 30 + 10) v).events
          = (enableAutoControl configs states d).events ∧
      readHoldingReg
          (handleWriteSingleRegister configs m states mbap ((u - 1) * 30 + 10) v).mem
          u 10 = some 0) := by
  have hinit : unitInitialized u = true := unitInitialized_of_getDeviceId u d hd
  have hread10 : readHoldingReg (writeHoldingReg m u 10 v) u 10 = some v := by
    rw [readHoldingReg_writeHoldingReg_self m u 10 v hinit (by omega),
      Nat.mod_eq_of_lt hv16]
  refine ⟨fun hv4 => ?_, fun hv4 hv2 => ?_⟩
  · have hv0 : v ≠ 0 := by intro h; rw [h] at hv4; simp at hv4
    unfold handleWriteSingleRegister
    rw [getUnit_holding_command u hu]
    dsimp only
    rw [if_neg (by omega : ¬ (30 ≤ 10))]
    unfold readHoldingRegisterChange
    rw [hd]
    dsimp only
    rw [if_neg (by omega : ¬ ((10 : ℕ) = 0)), if_neg (by omega : ¬ ((10 : ℕ) = 1)),
      if_pos rfl]
    unfold processCommand readCommand
    rw [hd]
    dsimp only
    rw [hread10]
    dsimp only [Option.getD]
    rw [if_neg hv0, if_pos hv4]
    dsimp only
    rw [if_neg (by decide : ¬ ((4 : ℕ) = ModbusCommand.ENABLE_AUTO_CONTROL)),
      if_pos (by decide : (4 : ℕ) = ModbusCommand.DISABLE_AUTO_CONTROL)]
    refine ⟨rfl, by simp, by simp, ?_⟩
    unfold clearCommand
    rw [readHoldingReg_writeHoldingReg_self _ u 10 0 hinit (by omega)]
  · have hv0 : v ≠ 0 := by intro h; rw [h] at hv2; simp at hv2
    unfold handleWriteSingleRegister
    rw [getUnit_holding_command u hu]
    dsimp only
    rw [if_neg (by omega : ¬ (30 ≤ 10))]
    unfold readHoldingRegisterChange
    rw [hd]
    dsimp only
    rw [if_neg (by omega : ¬ ((10 : ℕ) = 0)), if_neg (by omega : ¬ ((10 : ℕ) = 1)),
      if_pos rfl]
    unfold processCommand readCommand
    rw [hd]
    dsimp only
    rw [hread10]
    dsimp only [Option.getD]
    rw [if_neg hv0, if_neg (by simp [hv4]), if_pos hv2]
    dsimp only
    rw [if_pos (by decide : (2 : ℕ) = ModbusCommand.ENABLE_AUTO_CONTROL)]
    refine ⟨rfl, by simp, by simp, ?_⟩
    unfold clearCommand
    rw [readHoldingReg_writeHoldingReg_self _ u 10 0 hinit (by omega)]

/-- C6 witness: scenario S4 — writing 6 (bits 1+2) to the COMMAND
register of device 1 applies DisableAuto and the register reads back
0; writing 2 applies EnableAuto. -/
theorem commandWord_bit_dispatch_witness :
    ((handleWriteSingleRegister heatingConfigs0 mem0 autoOnStates 1 10 6).states
        = (disableAutoControl heatingConfigs0 autoOnStates "ШУК1").states ∧
     (handleWriteSingleRegister heatingConfigs0 mem0 autoOnStates 1 10 6).publishes
        = (disableAutoControl heatingConfigs0 autoOnStates "ШУК1").publishes ∧
     (handleWriteSingleRegister heatingConfigs0 mem0 autoOnStates 1 10 6).events
        = (disableAutoControl heatingConfigs0 autoOnStates "ШУК1").events ∧
     readHoldingReg
        (handleWriteSingleRegister heatingConfigs0 mem0 autoOnStates 1 10 6).mem
        1 10 = some 0) ∧
    ((handleWriteSingleRegister heatingConfigs0 mem0 autoOnStates 1 10 2).states
        = (enableAutoControl heatingConfigs0 autoOnStates "ШУК1").states ∧
     (handleWriteSingleRegister heatingConfigs0 mem0 autoOnStates 1 10 2).publishes
        = (enableAutoControl heatingConfigs0 autoOnStates "ШУК1").publishes ∧
     (handleWriteSingleRegister heatingConfigs0 mem0 autoOnStates 1 10 2).events
        = (enableAutoControl heatingConfigs0 autoOnStates "ШУК1").events ∧
     readHoldingReg
        (handleWriteSingleRegister heatingConfigs0 mem0 autoOnStates 1 10 2).mem
        1 10 = some 0) :=
  ⟨(commandWord_bit_dispatch heatingConfigs0 mem0 autoOnStates 1 1 6 "ШУК1"
      (by norm_num) rfl (by norm_num)).1 (by decide),
   (commandWord_bit_dispatch heatingConfigs0 mem0 autoOnStates 1 1 2 "ШУК1"
      (by norm_num) rfl (by norm_num)).2 (by decide) (by decide)⟩

/-- C7 counterexample: an FC06 write of the value 8 (non-zero, neither
bit 2 nor bit 4) to the COMMAND register of device 1 is accepted with
a normal echo response — the handler has no Modbus-exception path — no
command is applied, and the COMMAND register retains the value 8. -/
theorem fc06_unknown_command_counterexample :
    (handleWriteSingleRegister heatingConfigs0 mem0 states0 1 10 8).response
      = some ⟨10, 8⟩ ∧
    (handleWriteSingleRegister heatingConfigs0 mem0 states0 1 10 8).states = states0 ∧
    (handleWriteSingleRegister heatingConfigs0 mem0 states0 1 10 8).publishes = [] ∧
    (handleWriteSingleRegister heatingConfigs0 mem0 states0 1 10 8).events = [] ∧
    readHoldingReg
        (handleWriteSingleRegister heatingConfigs0 mem0 states0 1 10 8).mem 1 10
      = some 8 := by
  refine ⟨?_, ?_, ?_, ?_, ?_⟩ <;>
    norm_num +decide [handleWriteSingleRegister, getUnitIdFromHoldingRegisterAddress,
      readHoldingRegisterChange, getDeviceId, MODBUS_HEATING_DEVICES, processCommand,
      readCommand, clearCommand, readHoldingReg, writeHoldingReg, unitInitialized,
      MEMORY_SIZES.HOLDING_REGISTERS]

/-- C7 (amended): an FC06 write of a non-zero 16-bit value with
neither bit 2 nor bit 4 to a device's COMMAND register applies no
command to the device state, but no Modbus exception is returned: the
write completes with a normal echo response, and because `readCommand`
returns null before `clearCommand` runs, the COMMAND register retains
the written value instead of being cleared. -/
theorem fc06_unknown_command_no_action (configs : ConfigsTable)
    (m : ModbusMemory) (states : StatesTable) (mbap u v : ℕ) (d : String)
    (hu : 1 ≤ u) (hd : getDeviceId u = some d) (hv16 : v < 65536) (hv0 : v ≠ 0)
    (hv2 : v &&& 2 = 0) (hv4 : v &&& 4 = 0) :
    (handleWriteSingleRegister configs m states mbap ((u - 1) * 30 + 10) v).states
      = states ∧
    (handleWriteSingleRegister configs m states mbap ((u - 1) * 30 + 10) v).publishes
      = [] ∧
    (handleWriteSingleRegister configs m states mbap ((u - 1) * 30 + 10) v).events
      = [] ∧
    (handleWriteSingleRegister configs m states mbap ((u - 1) * 30 + 10) v).response
      = some ⟨(u - 1) * 30 + 10, v⟩ ∧
    readHoldingReg
        (handleWriteSingleRegister configs m states mbap ((u - 1) * 30 + 10) v).mem
        u 10 = some v := by
  have hinit : unitInitialized u = true := unitInitialized_of_getDeviceId u d hd
  have hread : readHoldingReg (writeHoldingReg m u 10 v) u 10 = some v := by
    rw [readHoldingReg_writeHoldingReg_self m u 10 v hinit (by omega),
      Nat.mod_eq_of_lt hv16]
  unfold handleWriteSingleRegister
  rw [getUnit_holding_command u hu]
  dsimp only
  rw [if_neg (by omega : ¬ (30 ≤ 10))]
  unfold readHoldingRegisterChange
  rw [hd]
  dsimp only
  rw [if_neg (by omega : ¬ ((10 : ℕ) = 0)), if_neg (by omega : ¬ ((10 : ℕ) = 1))]
  rw [if_pos rfl]
  unfold processCommand readCommand
  rw [hd]
  dsimp only
  rw [hread]
  dsimp only [Option.getD]
  rw [if_neg hv0, if_neg (by simp [hv4]), if_neg (by simp [hv2])]
  exact ⟨rfl, rfl, rfl, rfl, hread⟩

/-- C7 witness: instantiating the amended theorem at device 1 with the
value 8 on the all-zero plane. -/
theorem fc06_unknown_command_no_action_witness :
    (handleWriteSingleRegister heatingConfigs0 mem0 states0 7 10 8).states
      = states0 ∧
    (handleWriteSingleRegister heatingConfigs0 mem0 states0 7 10 8).publishes = [] ∧
    (handleWriteSingleRegister heatingConfigs0 mem0 states0 7 10 8).events = [] ∧
    (handleWriteSingleRegister heatingConfigs0 mem0 states0 7 10 8).response
      = some ⟨10, 8⟩ ∧
    readHoldingReg
        (handleWriteSingleRegister heatingConfigs0 mem0 states0 7 10 8).mem 1 10
      = some 8 :=
  fc06_unknown_command_no_action heatingConfigs0 mem0 states0 7 1 8 "ШУК1"
    (by norm_num) rfl (by norm_num) (by norm_num) (by decide) (by decide)

/-- C8 counterexample: with only coil 0 of unit 2 set, an FC01 read at
address 0 with MBAP unit id 2 returns `[true]` (the code reads unit 2,
the MBAP unit), while the claimed stride-16 rule — effective unit
`⌊0/16⌋ + 1 = 1`, independent of the MBAP byte — would return
`[false]`. -/
theorem coils_stride_rule_counterexample :
    handleReadCoils memCoil2 2 0 1 = [true] ∧
    coilsStrideRuleRead memCoil2 0 1 = [false] := by
  constructor <;>
    norm_num +decide [handleReadCoils, coilsStrideRuleRead, readCoilBit,
      memCoil2, unitInitialized, MODBUS_HEATING_DEVICES, MEMORY_SIZES.COILS,
      List.range_succ]

/-- C8 (amended): coil reads, coil writes and discrete-input reads all
address the device by the MBAP unit id of the request and the raw bit
address within that unit's 16-bit area; no stride-16 flat remapping is
applied (and discrete reads of bit addresses at or above 16 return
false). -/
theorem coil_discrete_access_uses_mbap_unit (configs : ConfigsTable)
    (states : StatesTable) (m : ModbusMemory) (u a : ℕ) (b : Bool)
    (hinit : unitInitialized u = true) (ha : a < 16) :
    handleReadCoils m u a 1 = [m.coils u a] ∧
    handleReadDiscreteInputs m u a 1 = [m.discrete u a] ∧
    (handleWriteSingleCoil configs m states u a b).mem.coils u a = b := by
  refine ⟨?_, ?_, ?_⟩
  · unfold handleReadCoils readCoilBit
    simp [List.range_succ, MEMORY_SIZES.COILS, hinit, ha]
  · unfold handleReadDiscreteInputs readDiscreteBit
    simp [List.range_succ, MEMORY_SIZES.DISCRETE_INPUTS, hinit, ha,
      Nat.not_le.mpr ha]
  · unfold handleWriteSingleCoil writeCoilBit
    simp [MEMORY_SIZES.COILS, hinit, ha]

/-- C8 witness: instantiating the amended theorem at MBAP unit 2,
address 0, on the plane whose only set bit is coil 0 of unit 2. -/
theorem coil_discrete_access_uses_mbap_unit_witness :
    handleReadCoils memCoil2 2 0 1 = [memCoil2.coils 2 0] ∧
    handleReadDiscreteInputs memCoil2 2 0 1 = [memCoil2.discrete 2 0] ∧
    (handleWriteSingleCoil heatingConfigs0 memCoil2 states0 2 0 true).mem.coils 2 0
      = true :=
  coil_discrete_access_uses_mbap_unit heatingConfigs0 states0 memCoil2 2 0 true
    rfl (by norm_num)

/-- C1 (code bug): device 3 measures 36 °C, above the 35 °C overheat
limit, yet the regulator tick of neither revision performs an
emergency stop: `emergency_stop` stays `false` and no `Emergency`
event is emitted — `runPIDControl` contains no overheat check at all. -/
theorem runPIDControl_overheat_no_emergency_stop :
    heatingConfig0.temperatureSettings.TEMP_OVERHEAT_LIMIT
        < overheatState3.currentTemperature ∧
    ((runPIDControl heatingConfigs0 overheatStates 1 "ШУК3").states "ШУК3").map
        (fun s => s.isEmergencyStop) = some false ∧
    (∀ e ∈ (runPIDControl heatingConfigs0 overheatStates 1 "ШУК3").events,
        e.kind ≠ HeatingEventKind.emergencyStopEvt) ∧
    ((runPIDControlDb heatingConfigs0 overheatStates 1 "ШУК3").states "ШУК3").map
        (fun s => s.isEmergencyStop) = some false ∧
    (∀ e ∈ (runPIDControlDb heatingConfigs0 overheatStates 1 "ШУК3").events,
        e.kind ≠ HeatingEventKind.emergencyStopEvt) := by
  refine ⟨?_, ?_, ?_, ?_, ?_⟩
  · norm_num [heatingConfig0, overheatState3, baseState0]
  · norm_num +decide [runPIDControl, setSeasonalValve, getSeasonalValveState,
      modifyState, overheatStates, overheatState3, states0, heatingConfigs0,
      heatingConfig0, pidSettings0, baseState0, max_def]
  · norm_num +decide [runPIDControl, setSeasonalValve, getSeasonalValveState,
      modifyState, overheatStates, overheatState3, states0, heatingConfigs0,
      heatingConfig0, pidSettings0, baseState0, max_def]
  · norm_num +decide [runPIDControlDb, effectiveErrorDb, setSeasonalValve,
      getSeasonalValveState, modifyState, overheatStates, overheatState3,
      states0, heatingConfigs0, heatingConfig0, pidSettings0, baseState0,
      max_def]
  · norm_num +decide [runPIDControlDb, effectiveErrorDb, setSeasonalValve,
      getSeasonalValveState, modifyState, overheatStates, overheatState3,
      states0, heatingConfigs0, heatingConfig0, pidSettings0, baseState0,
      max_def]

